import Mathlib

/-!
Shallow embedding of the Gaussian-value library in src/mvar.py (the `Mvar`
class, its factories, operators and module-level helpers), over exact
rational arithmetic.  Fallible code is modelled with `Except PyErr`.

The numeric primitives of numpy that are not rational (elementwise square
root, fractional powers, trigonometric functions, and the symmetric
eigendecomposition `numpy.linalg.eigh`) are passed in as an explicit
`Numerics` record; every theorem below is proved for an arbitrary record,
so none of the results depend on the values those primitives return.

The source file is Python 2 code containing several misspelled or undefined
names; where an execution path reaches such a name the embedding returns the
corresponding `PyErr` value, with a comment citing the source line.
-/

namespace Mvn

/-- Python exceptions raised by the code paths in src/mvar.py that the
claims exercise.  Each constructor is one concrete raise site. -/
inductive PyErr
  /-- NameError: the autostack callable branch evaluates the undefined
  global name at the expression building the sizes array
  (src/mvar.py line 845). -/
  | nameErrorNone
  /-- NameError: from_mean_std evaluates the bare undefined name that
  should have been numpy.zeros (src/mvar.py line 159). -/
  | nameErrorZeros
  /-- NameError: the scalarmul lambda in multiply reads the undefined
  name that should have been the parameter (src/mvar.py line 982). -/
  | nameErrorFirst
  /-- NameError: the except clause of Mvar.__sub__ names a misspelled,
  hence undefined, exception class; looking it up while an exception is
  in flight raises a NameError (src/mvar.py line 704). -/
  | nameErrorAttributError
  /-- AttributeError: rconvert in multiply calls a misspelled attribute
  of the numpy module (src/mvar.py line 969). -/
  | attributeErrorMatix
  /-- AttributeError: from_mean_cov reads mean.size while mean is None
  (src/mvar.py line 179). -/
  | attributeErrorNoneSize
  /-- TypeError: the module-level paralell receives the operand tuple as
  one starred argument, so it raises the tuple itself to the power -1
  (src/mvar.py lines 403 and 886). -/
  | typeErrorTuplePow
  /-- TypeError: numpy.ndarray applied to a non-integer scalar
  (src/mvar.py line 970). -/
  | typeErrorFloatIndex
  /-- ValueError: numpy.ndarray applied to a negative integer
  (src/mvar.py line 970). -/
  | valueErrorNegativeDims
  /-- TypeError raised by the interpreter after a binary operator
  returns NotImplemented on both sides. -/
  | typeErrorAddFallback
  /-- KeyError: the multipliers dispatch table has no entry for the key
  produced when rconvert returns the Mvar class object itself
  (src/mvar.py lines 968 and 994). -/
  | keyErrorDispatch
  /-- IndexError: paralell indexes an empty list of inverted operands. -/
  | indexError
  /-- AssertionError from the guard of from_mean_std
  (src/mvar.py line 153). -/
  | assertionError
  deriving DecidableEq

/-- Matrices are lists of row lists of rationals, mirroring numpy.matrix
with exact arithmetic in place of floating point. -/
abbrev Mat := List (List ℚ)

/-- Dot product of two rows. -/
def dot (u v : List ℚ) : ℚ := (List.zipWith (· * ·) u v).sum

/-- Matrix transpose. -/
def transpose (m : Mat) : Mat :=
  (List.range (m.headD []).length).map fun j => m.map fun row => row.getD j 0

/-- Matrix product. -/
def matMul (a b : Mat) : Mat :=
  a.map fun r => (transpose b).map fun c => dot r c

/-- Elementwise matrix sum. -/
def matAdd (a b : Mat) : Mat := List.zipWith (List.zipWith (· + ·)) a b

/-- Elementwise matrix difference. -/
def matSub (a b : Mat) : Mat := List.zipWith (List.zipWith (· - ·)) a b

/-- Elementwise row sum. -/
def rowAdd (u v : List ℚ) : List ℚ := List.zipWith (· + ·) u v

/-- Elementwise row difference. -/
def rowSub (u v : List ℚ) : List ℚ := List.zipWith (· - ·) u v

/-- numpy .size: the total number of entries. -/
def matSize (m : Mat) : ℕ := (m.map List.length).sum

/-- numpy .shape of a matrix. -/
def shape (m : Mat) : ℕ × ℕ := (m.length, (m.headD []).length)

/-- Whether a matrix has as many rows as columns
(the test on src/mvar.py line 227). -/
def isSquare (m : Mat) : Bool := decide (m.length = (m.headD []).length)

/-- numpy.diagflat: flatten the input and lay it on a diagonal
(src/mvar.py line 229). -/
def diagflat (m : Mat) : Mat :=
  let v := m.flatten
  (List.range v.length).map fun i =>
    (List.range v.length).map fun j => if i = j then v.getD i 0 else 0

/-- numpy.diag of a vector: the square diagonal matrix. -/
def diagMat (v : List ℚ) : Mat :=
  (List.range v.length).map fun i =>
    (List.range v.length).map fun j => if i = j then v.getD i 0 else 0

/-- numpy.zeros((1,k)) as a 1 by k row (src/mvar.py lines 180 and 241). -/
def zeroRow (k : ℕ) : Mat := [List.replicate k 0]

/-- numpy.zeros((n,n)) (src/mvar.py line 179). -/
def zeroMat (n : ℕ) : Mat := List.replicate n (List.replicate n 0)

/-- The numpy primitives that have no exact rational counterpart.  The
embedding is parametric in them: sqrt models elementwise `** 0.5` and
numpy.sqrt, rpow models elementwise `** p` for a scalar exponent, cos and
sin model numpy.cos and numpy.sin, and eigh models numpy.linalg.eigh
returning the eigenvalue vector and the matrix whose columns are
eigenvectors.  All theorems hold for every choice of these fields. -/
structure Numerics where
  sqrt : ℚ → ℚ
  rpow : ℚ → ℚ → ℚ
  cos : ℚ → ℚ
  sin : ℚ → ℚ
  eigh : Mat → List ℚ × Mat

/-- The Mvar class: its only stored attribute is the affine block matrix
(std stacked over mean with a homogeneous column, src/mvar.py line 140). -/
structure Mvar where
  affine : Mat
  deriving DecidableEq

/-- Mvar.get_std: the affine block without its last row and last column
(src/mvar.py line 351). -/
def get_std (a : Mvar) : Mat := a.affine.dropLast.map List.dropLast

/-- Mvar.get_mean: the last affine row without its homogeneous entry
(src/mvar.py line 342). -/
def get_mean (a : Mvar) : List ℚ := (a.affine.getLastD []).dropLast

/-- Mvar.get_cov: std transposed times std (src/mvar.py line 334). -/
def get_cov (a : Mvar) : Mat := matMul (transpose (get_std a)) (get_std a)

/-- Mvar.get_rotate: each std row divided by the square root of its
self dot product (src/mvar.py lines 305 to 308; this autostack call
stacks plain rows and contains no callable, so it succeeds). -/
def get_rotate (nu : Numerics) (a : Mvar) : Mat :=
  (get_std a).map fun v => v.map fun x => x / nu.sqrt (dot v v)

/-- The diagonal of Mvar.get_scale: square roots of the diagonal of
std times std transposed (src/mvar.py lines 320 to 323).  Mvar.__pow__
immediately re-extracts this vector with numpy.diag (line 460). -/
def get_scale_diag (nu : Numerics) (a : Mvar) : List ℚ :=
  (get_std a).map fun v => nu.sqrt (dot v v)

/-- One entry of an autostack row specification: a matrix, a bare scalar,
the (1,1) object matrix that numpy.matrix(None) yields, or a callable
such as numpy.zeros passed unapplied (src/mvar.py lines 162 to 165). -/
inductive Stackable
  | mat (m : Mat)
  | scalar (q : ℚ)
  | objNone
  | callable

/-- The matrix an autostack entry contributes on the stacking branch.
The objNone and callable entries are never consulted: every rows list
containing one of them also contains a callable, and autostack fails on
callables before stacking. -/
def stackVal : Stackable → Mat
  | .mat m => m
  | .scalar q => [[q]]
  | .objNone => [[0]]
  | .callable => []

/-- Whether a row specification contains a callable entry. -/
def rowHasCallable (r : List Stackable) : Bool :=
  r.any fun s => match s with | .callable => true | _ => false

/-- Horizontally concatenate matrices of equal height. -/
def hstackList : List Mat → Mat
  | [] => []
  | m :: ms => ms.foldl (fun acc x => List.zipWith (· ++ ·) acc x) m

/-- autostack (src/mvar.py lines 812 to 877).  When no entry is callable
it vertically stacks the horizontally stacked rows (lines 869 to 877).
When some entry is callable it takes the branch of lines 836 to 868,
which evaluates the undefined global name on line 845 while building the
sizes array and therefore raises a NameError for every such input. -/
def autostack (rows : List (List Stackable)) : Except PyErr Mat :=
  if rows.any rowHasCallable then
    .error .nameErrorNone
  else
    .ok (rows.map (fun r => hstackList (r.map stackVal))).flatten

/-- The 2 by 2 rotation matrix that from_roto_scale assembles from an
angle via autostack over four scalar entries (src/mvar.py lines 235
to 238); the theorem rotFromAngle_matches_autostack below ties this
definition back to autostack. -/
def rotFromAngle (nu : Numerics) (theta : ℚ) : Mat :=
  [[nu.cos theta, nu.sin theta], [-(nu.sin theta), nu.cos theta]]

/-- Mvar.from_roto_scale (src/mvar.py lines 209 to 247): square up the
scale with diagflat if needed, replace a size-one rotation by the angle
matrix when the scale is 2 by 2, default a missing mean to zeros, and
build the affine block with autostack, whose second entry is the
unapplied numpy.zeros callable (line 245).  On the success path the
Mvar constructor would call refresh; that path is unreachable because
the final autostack always contains a callable. -/
def from_roto_scale (nu : Numerics) (rotation0 : Mat) (scale0 : Mat)
    (mean? : Option Mat) : Except PyErr Mvar := do
  let scale := if isSquare scale0 then scale0 else diagflat scale0
  let rotation :=
    if matSize rotation0 = 1 ∧ shape scale = (2, 2) then
      rotFromAngle nu ((rotation0.headD []).headD 0)
    else rotation0
  let mean := mean?.getD (zeroRow scale.length)
  let affine ← autostack
    [[.mat (matMul scale rotation), .callable], [.mat mean, .scalar 1]]
  .ok ⟨affine⟩

/-- Mvar.from_mean_cov (src/mvar.py lines 168 to 192): default a missing
argument to zeros sized from the other, eigendecompose the covariance,
take elementwise square roots of the eigenvalues, and delegate to
from_roto_scale.  With both arguments missing, line 179 reads the size
attribute of None.  Note the eigenvector matrix of eigh, whose columns
are the eigenvectors, is passed as the rotation without a transpose. -/
def from_mean_cov (nu : Numerics) (mean? cov? : Option Mat) :
    Except PyErr Mvar :=
  match mean?, cov? with
  | none, none => .error .attributeErrorNoneSize
  | some mean, none =>
      let cov := zeroMat (matSize mean)
      let p := nu.eigh cov
      from_roto_scale nu p.2 [p.1.map nu.sqrt] (some mean)
  | none, some cov =>
      let mean := zeroRow cov.length
      let p := nu.eigh cov
      from_roto_scale nu p.2 [p.1.map nu.sqrt] (some mean)
  | some mean, some cov =>
      let p := nu.eigh cov
      from_roto_scale nu p.2 [p.1.map nu.sqrt] (some mean)

/-- Mvar.from_mean_std (src/mvar.py lines 147 to 165).  Line 156 guards
the conversion of std on mean being present instead of std, so:
with both arguments missing the assert on line 153 fires; with only std
the conversion discards std and line 159 evaluates a bare undefined
zeros; with only mean, std becomes numpy.matrix(None) and the autostack
on lines 162 to 165, whose second entry is the numpy.zeros callable,
raises; with both present that same autostack raises. -/
def from_mean_std (mean? std? : Option Mat) : Except PyErr Mvar :=
  match mean?, std? with
  | none, none => .error .assertionError
  | none, some _ => .error .nameErrorZeros
  | some mean, none => do
      let affine ← autostack
        [[.objNone, .callable], [.mat mean, .scalar 1]]
      .ok ⟨affine⟩
  | some mean, some std => do
      let affine ← autostack
        [[.mat std, .callable], [.mat mean, .scalar 1]]
      .ok ⟨affine⟩

/-- Mvar.refresh (src/mvar.py lines 271 to 278): rebuild the affine
block via from_mean_cov on the current mean and covariance. -/
def refresh (nu : Numerics) (a : Mvar) : Except PyErr Mvar :=
  from_mean_cov nu (some [get_mean a]) (some (get_cov a))

/-- Mvar.__eq__ (src/mvar.py lines 364 to 371), with numpy.allclose
idealized to exact equality: it compares the left Gram matrix
affine transposed times affine against the right expression, which the
source writes as affine transposed times affine transposed. -/
def mvarEq (a b : Mvar) : Bool :=
  decide (matMul (transpose a.affine) a.affine
    = matMul (transpose b.affine) (transpose b.affine))

/-- Whether an error is an AttributeError, for the except clause of
Mvar.__add__ (src/mvar.py line 676). -/
def PyErr.isAttributeError : PyErr → Bool
  | .attributeErrorMatix => true
  | .attributeErrorNoneSize => true
  | _ => false

/-- Result of a Python binary operator: a value or NotImplemented. -/
inductive AddRes
  | val (m : Mvar)
  | notImplemented
  deriving DecidableEq

/-- Mvar.__add__ (src/mvar.py lines 644 to 677): from_mean_cov on the
summed means and covariances, converting an AttributeError to
NotImplemented and letting every other exception propagate. -/
def mvarAdd (nu : Numerics) (a b : Mvar) : Except PyErr AddRes :=
  match from_mean_cov nu (some [rowAdd (get_mean a) (get_mean b)])
      (some (matAdd (get_cov a) (get_cov b))) with
  | .error e => if e.isAttributeError then .ok .notImplemented else .error e
  | .ok m => .ok (.val m)

/-- Mvar.__sub__ (src/mvar.py lines 682 to 705): from_mean_cov on the
differenced means and covariances.  The except clause on line 704 names
a misspelled exception class, so whenever the body raises, looking up
that name raises a NameError instead of handling the exception. -/
def mvarSub (nu : Numerics) (a b : Mvar) : Except PyErr AddRes :=
  match from_mean_cov nu (some [rowSub (get_mean a) (get_mean b)])
      (some (matSub (get_cov a) (get_cov b))) with
  | .error _ => .error .nameErrorAttributError
  | .ok m => .ok (.val m)

/-- Mvar.__iadd__ (src/mvar.py lines 679 to 680): evaluate self plus
other and store its affine block.  The method has no return statement,
so on the success path the augmented assignment would rebind the
receiver name to None; the embedding returns that rebound value. -/
def mvarIadd (nu : Numerics) (a b : Mvar) : Except PyErr (Option Mvar) :=
  match mvarAdd nu a b with
  | .error e => .error e
  | .ok (.val _) => .ok none
  | .ok .notImplemented => .error .typeErrorAddFallback

/-- The right operand of multiply before rconvert classifies it
(src/mvar.py lines 964 to 996). -/
inductive MulArg
  | mvarArg (b : Mvar)
  | matrixArg (m : Mat)
  | scalarArg (q : ℚ)

/-- What rconvert can return when it does not raise. -/
inductive RConverted
  /-- For an Mvar operand, rconvert returns the Mvar class object
  itself rather than the operand (src/mvar.py line 968). -/
  | mvarClass
  /-- For a nonnegative-integer scalar k, numpy.ndarray(k) builds an
  uninitialized array of shape (k,) (src/mvar.py line 970). -/
  | ndarrayObj (n : ℕ)

/-- rconvert (src/mvar.py lines 967 to 971): Mvar operands yield the
class object; matrix-like operands hit the misspelled numpy attribute
and raise AttributeError; scalar operands are fed to the numpy.ndarray
constructor, which treats them as a shape. -/
def rconvert : MulArg → Except PyErr RConverted
  | .mvarArg _ => .ok .mvarClass
  | .matrixArg _ => .error .attributeErrorMatix
  | .scalarArg q =>
      if q.den = 1 then
        if 0 ≤ q.num then .ok (.ndarrayObj q.num.toNat)
        else .error .valueErrorNegativeDims
      else .error .typeErrorFloatIndex

/-- The scalarmul lambda of multiply (src/mvar.py lines 981 to 984):
its body reads the undefined name on line 982 before anything else. -/
def scalarmul (_self : Mvar) (_constant : RConverted) : Except PyErr Mvar :=
  .error .nameErrorFirst

/-- multiply (src/mvar.py lines 964 to 996): rconvert the right operand
then dispatch on the pair of types.  An Mvar right operand becomes the
class object, whose type has no dispatch entry, raising KeyError; an
ndarray right operand dispatches to scalarmul. -/
def multiply (self : Mvar) (other : MulArg) : Except PyErr Mvar := do
  let o ← rconvert other
  match o with
  | .mvarClass => .error .keyErrorDispatch
  | .ndarrayObj n => scalarmul self (.ndarrayObj n)

/-- Mvar.__pow__ (src/mvar.py lines 412 to 464): read rotate and the
scale diagonal, build undo as rotate transposed times the inverse scale
diagonal and new_std as the powered scale diagonal times rotate, and
multiply self by their product. -/
def mvarPow (nu : Numerics) (a : Mvar) (p : ℚ) : Except PyErr Mvar :=
  let rotate := get_rotate nu a
  let scale := get_scale_diag nu a
  let undo := matMul (transpose rotate) (diagMat (scale.map fun s => nu.rpow s (-1)))
  let newStd := matMul (diagMat (scale.map fun s => nu.rpow s p)) rotate
  multiply a (.matrixArg (matMul undo newStd))

/-- A Python value reachable inside paralell: an Mvar or a tuple. -/
inductive PVal
  | mvarV (m : Mvar)
  | tupleV (l : List PVal)

/-- Raising a PVal to a rational power: tuples do not support the power
operator, Mvars go through Mvar.__pow__. -/
def pvalPow (nu : Numerics) (v : PVal) (p : ℚ) : Except PyErr PVal :=
  match v with
  | .tupleV _ => .error .typeErrorTuplePow
  | .mvarV m => (mvarPow nu m p).map .mvarV

/-- Adding two PVals, as the sum builtin inside paralell would. -/
def pvalAdd (nu : Numerics) (x y : PVal) : Except PyErr PVal :=
  match x, y with
  | .mvarV a, .mvarV b =>
      match mvarAdd nu a b with
      | .ok (.val m) => .ok (.mvarV m)
      | .ok .notImplemented => .error .typeErrorAddFallback
      | .error e => .error e
  | _, _ => .error .typeErrorAddFallback

/-- The module-level paralell (src/mvar.py lines 880 to 887): invert
every item, sum the inversions, invert the sum. -/
def paralell (nu : Numerics) (items : List PVal) : Except PyErr PVal := do
  let inverted ← items.mapM fun it => pvalPow nu it (-1)
  match inverted with
  | [] => .error .indexError
  | h :: t => do
      let s ← t.foldlM (pvalAdd nu) h
      pvalPow nu s (-1)

/-- Mvar.__and__ (src/mvar.py lines 373 to 403): it calls paralell with
the whole operand tuple as a single positional argument, and paralell
declares a starred parameter, so paralell sees a one-element list whose
element is the tuple of operands. -/
def mvarAnd (nu : Numerics) (mvars : List Mvar) : Except PyErr PVal :=
  paralell nu [PVal.tupleV (mvars.map PVal.mvarV)]

/-- The grand mean that numpy.mean computes on a matrix when called
without an axis argument, as Mvar.from_data does
(src/mvar.py line 207). -/
def grandMean (data : Mat) : ℚ := (data.map List.sum).sum / (matSize data : ℚ)

/-- Mean of one row. -/
def rowMean (r : List ℚ) : ℚ := r.sum / (r.length : ℚ)

/-- numpy.cov with its default rowvar, as Mvar.from_data calls it:
every row is one variable and every column one observation; bias
selects the divisor n instead of n minus 1 (src/mvar.py line 207). -/
def npCov (data : Mat) (bias : Bool) : Mat :=
  let n : ℚ := ((data.headD []).length : ℚ)
  let centered := data.map fun r => r.map fun x => x - rowMean r
  let denom : ℚ := if bias then n else n - 1
  centered.map fun ri => centered.map fun rj => dot ri rj / denom

/-- Mvar.from_data (src/mvar.py lines 194 to 207): from_mean_cov on the
grand mean and the rowvar covariance of the data. -/
def from_data (nu : Numerics) (data : Mat) (bias : Bool) :
    Except PyErr Mvar :=
  from_mean_cov nu (some [[grandMean data]]) (some (npCov data bias))

/-- A concrete 2-dimensional Mvar: identity std, mean (1,2). -/
def mvarA : Mvar := ⟨[[1, 0, 0], [0, 1, 0], [1, 2, 1]]⟩

/-- A concrete 2-dimensional Mvar: identity std, mean (3,3). -/
def mvarB : Mvar := ⟨[[1, 0, 0], [0, 1, 0], [3, 3, 1]]⟩

/-- A concrete 1-dimensional Mvar: std (1), mean (1). -/
def mvarC : Mvar := ⟨[[1, 0], [1, 1]]⟩

/-- A concrete instantiation of the numeric primitives, used to state
closed counterexamples. -/
def defaultNumerics : Numerics where
  sqrt := fun q => q
  rpow := fun q _ => q
  cos := fun _ => 1
  sin := fun _ => 0
  eigh := fun m => (m.headD [], m)

/-- The angle branch of from_roto_scale really goes through autostack:
stacking the four scalar entries succeeds (no callable is present) and
yields exactly rotFromAngle. -/
theorem rotFromAngle_matches_autostack (nu : Numerics) (theta : ℚ) :
    autostack [[.scalar (nu.cos theta), .scalar (nu.sin theta)],
      [.scalar (-(nu.sin theta)), .scalar (nu.cos theta)]]
      = .ok (rotFromAngle nu theta) := rfl

/-- Claim C1: for Gaussian values A and B of one ambient dimension, A + B
should be a Gaussian whose mean is A.mean + B.mean and whose covariance is
A.cov + B.cov; in particular the concrete scenario with means (1,2) and
(3,3).  On the code this fails: constructing A with from_mean_cov at the
scenario arguments already raises a NameError inside autostack, and
Mvar.__add__ on any two concrete Mvars raises the same NameError, for
every choice of the numeric primitives. -/
theorem C1_add_raises_nameerror :
    ∀ nu : Numerics,
      from_mean_cov nu (some [[1, 2]]) (some [[1, 2], [2, 1]])
        = .error .nameErrorNone
      ∧ mvarAdd nu mvarA mvarB = .error .nameErrorNone :=
  fun _ => ⟨rfl, rfl⟩

/-- Claim C2: A and B should blend commutatively as the information-form
parallel combination.  On the code, Mvar.__and__ hands the operand tuple
to the starred parameter of paralell as one element, so paralell raises
the tuple itself to the power -1 and a TypeError results for every choice
of the numeric primitives. -/
theorem C2_blend_raises_typeerror :
    ∀ nu : Numerics, mvarAnd nu [mvarA, mvarB] = .error .typeErrorTuplePow :=
  fun _ => rfl

/-- Claim C3: A * k for a scalar k > 0 should scale the mean by k and the
covariance by k.  On the code, multiply converts the scalar with
numpy.ndarray and dispatches to scalarmul, whose first expression reads
an undefined name, so A * 2 raises a NameError. -/
theorem C3_scalar_multiply_raises_nameerror :
    multiply mvarA (MulArg.scalarArg 2) = .error .nameErrorFirst := rfl

/-- Claim C4: A ** p should power only the scale, keep the rotation, and
carry the mean along.  On the code, Mvar.__pow__ ends by multiplying self
with a matrix, and the rconvert step of multiply evaluates a misspelled
numpy attribute, so A ** p raises an AttributeError for every exponent
and every choice of the numeric primitives. -/
theorem C4_pow_raises_attributeerror :
    ∀ (nu : Numerics) (p : ℚ), mvarPow nu mvarA p = .error .attributeErrorMatix :=
  fun _ _ => rfl

/-- Claim C5: from_data should yield the per-column sample mean and the
sample covariance of the rows.  On the code, from_data delegates to
from_mean_cov, which raises a NameError in autostack before any Mvar is
built, for every choice of the numeric primitives (moreover its
numpy.mean call computes the scalar grand mean and its numpy.cov call
treats rows as variables, contradicting the per-column claim). -/
theorem C5_from_data_raises_nameerror :
    ∀ nu : Numerics,
      from_data nu [[1, 2], [3, 4]] false = .error .nameErrorNone :=
  fun _ => rfl

/-- Claim C6: every Gaussian produced by a public operation should have
an orthonormal rotation.  On the code, no public operation ever produces
a Gaussian: refresh, the canonicalization that should establish the
invariant, itself raises a NameError in autostack (as does every
factory), for every choice of the numeric primitives. -/
theorem C6_refresh_raises_nameerror :
    ∀ nu : Numerics, refresh nu mvarA = .error .nameErrorNone :=
  fun _ => rfl

/-- Claim C7 counterexample: A - A does not return any factorization at
all, so in particular it does not return one whose near-zero axes were
dropped: at the concrete input mvarA with concrete numeric primitives,
Mvar.__sub__ yields an error, not a value. -/
theorem C7_counterexample_sub_returns_no_value :
    ¬ ∃ r : AddRes, mvarSub defaultNumerics mvarA mvarA = Except.ok r := by
  rintro ⟨r, h⟩
  have hE : mvarSub defaultNumerics mvarA mvarA
      = Except.error PyErr.nameErrorAttributError := rfl
  rw [hE] at h
  exact Except.noConfusion h

/-- Claim C7 amended: an operation that can introduce zero axes, such as
A - A, raises instead of returning a factorization (the autostack
NameError is masked by the misspelled except clause of Mvar.__sub__ into
a further NameError); no rank-reduction step exists in the
canonicalization, so no axis is ever dropped. -/
theorem C7_sub_raises_masked_nameerror :
    ∀ (nu : Numerics) (a b : Mvar),
      mvarSub nu a b = .error .nameErrorAttributError :=
  fun _ _ _ => rfl

/-- Claim C8: A += X should leave A equal to the pure result A + X.  On
the code, Mvar.__iadd__ evaluates self + other, which raises a NameError
for any two Mvars, so the receiver is never updated (and the method has
no return statement, so even a successful path would rebind A to None
rather than to a Gaussian value). -/
theorem C8_iadd_raises_nameerror :
    ∀ nu : Numerics, mvarIadd nu mvarA mvarB = .error .nameErrorNone :=
  fun _ => rfl

/-- Claim C9: supplying exactly one sizing argument to a mean/cov or
mean/std factory should succeed with the other defaulted to zeros, and
supplying neither should raise a size-inference error.  On the code only
the second half holds: from_mean_std with only std raises NameError on
the undefined zeros name (its line 156 tests the wrong argument), with
only mean it raises the autostack NameError, and one-argument
from_mean_cov raises the autostack NameError too; both-absent calls do
raise (AssertionError, and AttributeError on None.size). -/
theorem C9_one_argument_factories_raise :
    ∀ nu : Numerics,
      from_mean_std none (some [[1]]) = .error .nameErrorZeros
      ∧ from_mean_std (some [[1, 2]]) none = .error .nameErrorNone
      ∧ from_mean_std none none = .error .assertionError
      ∧ from_mean_cov nu (some [[1, 2]]) none = .error .nameErrorNone
      ∧ from_mean_cov nu none none = .error .attributeErrorNoneSize :=
  fun _ => ⟨rfl, rfl, rfl, rfl, rfl⟩

/-- Claim C10: equality should be reflexive, comparing the Gram matrices
of the two affine blocks.  On the code, Mvar.__eq__ compares the left
Gram matrix against the right affine transposed times itself transposed
(a doubled transpose), so a Mvar with std (1) and mean (1) is not equal
to itself. -/
theorem C10_eq_not_reflexive : mvarEq mvarC mvarC = false := by
  have h : matMul (transpose mvarC.affine) mvarC.affine
      ≠ matMul (transpose mvarC.affine) (transpose mvarC.affine) := by
    norm_num [mvarC, matMul, transpose, dot, List.range_succ]
  simp [mvarEq, h]

end Mvn
